import Mathlib

set_option maxRecDepth 100000

/-! Verification of the SQL-safety gate, complexity estimator, executor,
result cache and correction/retry orchestrator of the LLM-model
repository (src/db_utils.py, src/workflow.py, src/tools.py).

Strings are modelled as `List Char` (ASCII fidelity: Python `str.upper`
and `\w`, `\s` are modelled by their ASCII behaviour, which is exact for
the SQL texts at issue).  The Python regular expressions used by the code
are all built from literal characters, `\b` word boundaries, `\s*`, `\s+`
and non-greedy/greedy `.*` pieces, so they are embedded via a small token
language whose matcher decides existence of a match exactly as
`re.search` / `re.match` do.
-/

/-- Python `\s` (ASCII): space, tab, newline, carriage return, form feed,
vertical tab. -/
def isPySpace (c : Char) : Bool :=
  c = ' ' || c = '\t' || c = '\n' || c = '\r' || c = '\x0c' || c = '\x0b'

/-- Python `\w` (ASCII): letters, digits and underscore. -/
def isWordChar (c : Char) : Bool :=
  c.isAlphanum || c = '_'

/-- Python `str.upper()` (ASCII). -/
def upperL (s : List Char) : List Char :=
  s.map Char.toUpper

/-- Convert a Lean string literal to the `List Char` model. -/
def strL (s : String) : List Char :=
  s.data

/-- Python `str.strip()`: drop leading whitespace. -/
def dropLeadWs (s : List Char) : List Char :=
  s.dropWhile isPySpace

/-- Python `str.strip()`: drop trailing whitespace. -/
def dropTrailWs (s : List Char) : List Char :=
  (s.reverse.dropWhile isPySpace).reverse

/-- Python `str.strip()`. -/
def pyStrip (s : List Char) : List Char :=
  dropTrailWs (dropLeadWs s)

/-- Boolean list-prefix test (model of `str.startswith`). -/
def isPrefixL : List Char → List Char → Bool
  | [], _ => true
  | _ :: _, [] => false
  | a :: as, b :: bs => if a = b then isPrefixL as bs else false

/-- Boolean substring test (model of Python's `in` on strings). -/
def containsSub (p : List Char) : List Char → Bool
  | [] => isPrefixL p []
  | c :: rest => isPrefixL p (c :: rest) || containsSub p rest

/-! A tiny regex-token language covering exactly the constructs used by
the patterns in `db_utils.py`: literal characters, `\b`, `\s*`, `\s+`
and `.*` (which in Python does not cross a newline). -/

inductive Tok where
  | chr (c : Char)
  | wb
  | ws0
  | ws1
  | anyStar
deriving DecidableEq, Repr

/-- Whether an optional character counts as a word character (`none`
stands for the edge of the string, a non-word position). -/
def isWordOpt : Option Char → Bool
  | none => false
  | some c => isWordChar c

/-- Does some prefix of `s` match the token list, with `prev` the
character immediately before the current position (`none` at the string
edge)?  This decides existence of a match the way a backtracking regex
engine does, which is all `re.search`'s boolean outcome depends on.
Structural recursion on explicit fuel: every recursive call strictly
decreases `s.length + ts.length` (the `chr` case drops one of each, `wb`
and the first `ws0`/`anyStar` alternatives drop a token, the remaining
alternatives drop a character), so with fuel exceeding that sum the
fuel-exhaustion branch is unreachable and the function computes exactly
the backtracking matcher. -/
def matchesFuel : Nat → List Tok → Option Char → List Char → Bool
  | 0, _, _, _ => false
  | _ + 1, [], _, _ => true
  | fuel + 1, Tok.chr c :: ts, _, s =>
    match s with
    | [] => false
    | d :: rest => if d = c then matchesFuel fuel ts (some d) rest else false
  | fuel + 1, Tok.wb :: ts, prev, s =>
    if isWordOpt prev != isWordOpt s.head? then matchesFuel fuel ts prev s else false
  | fuel + 1, Tok.ws0 :: ts, prev, s =>
    matchesFuel fuel ts prev s ||
      (match s with
       | [] => false
       | c :: rest => isPySpace c && matchesFuel fuel (Tok.ws0 :: ts) (some c) rest)
  | fuel + 1, Tok.ws1 :: ts, _, s =>
    (match s with
     | [] => false
     | c :: rest => isPySpace c && matchesFuel fuel (Tok.ws0 :: ts) (some c) rest)
  | fuel + 1, Tok.anyStar :: ts, prev, s =>
    matchesFuel fuel ts prev s ||
      (match s with
       | [] => false
       | c :: rest => (!(c = '\n')) && matchesFuel fuel (Tok.anyStar :: ts) (some c) rest)

/-- The matcher with always-sufficient fuel. -/
def matchesFrom (ts : List Tok) (prev : Option Char) (s : List Char) : Bool :=
  matchesFuel (s.length + ts.length + 1) ts prev s

/-- Search with explicit previous-character state. -/
def searchFrom (ts : List Tok) : Option Char → List Char → Bool
  | prev, [] => matchesFrom ts prev []
  | prev, c :: rest => matchesFrom ts prev (c :: rest) || searchFrom ts (some c) rest

/-- Model of `re.search(pattern, s)` as a boolean. -/
def reSearch (ts : List Tok) (s : List Char) : Bool :=
  searchFrom ts none s

/-- Model of `re.match(pattern, s)` (anchored at the start) as a boolean. -/
def reMatchB (ts : List Tok) (s : List Char) : Bool :=
  matchesFrom ts none s

/-- Number of positions of `s` at which the pattern matches.  For the
join-counting patterns below, matches of one pattern never overlap (each
match contains its leading keyword exactly once, at its start), so this
equals `len(re.findall(pattern, s))`. -/
def countFrom (ts : List Tok) : Option Char → List Char → Nat
  | prev, [] => if matchesFrom ts prev [] then 1 else 0
  | prev, c :: rest =>
    (if matchesFrom ts prev (c :: rest) then 1 else 0) + countFrom ts (some c) rest

/-- Model of `len(re.findall(pattern, s))` for the join patterns. -/
def countMatches (ts : List Tok) (s : List Char) : Nat :=
  countFrom ts none s

/-- Literal characters of a keyword as tokens. -/
def lits (s : String) : List Tok :=
  s.data.map Tok.chr

/-- Pattern `\bKEYWORD\b`. -/
def kwPat (s : String) : List Tok :=
  [Tok.wb] ++ lits s ++ [Tok.wb]

/-! The deny-list and allow-list of `db_utils.py` (`BLOCKED_SQL_PATTERNS`
and `ALLOWED_SQL_PATTERNS`), token by token. -/

/-- Deny-list `BLOCKED_SQL_PATTERNS` from `db_utils.py`. -/
def BLOCKED_SQL_PATTERNS : List (List Tok) :=
  [ kwPat ("INSERT"), kwPat ("UPDATE"), kwPat ("DELETE"),
    kwPat ("DROP"), kwPat ("TRUNCATE"), kwPat ("ALTER"),
    kwPat ("CREATE"), kwPat ("GRANT"), kwPat ("REVOKE"),
    kwPat ("EXEC"), kwPat ("EXECUTE"), kwPat ("DECLARE"),
    [Tok.wb, Tok.chr ';', Tok.ws0, Tok.chr '-', Tok.chr '-'],
    [Tok.wb, Tok.chr ';', Tok.ws0, Tok.chr '#'],
    kwPat ("SHUTDOWN"), kwPat ("XP_"),
    [Tok.wb] ++ lits ("FROM") ++ [Tok.ws1] ++ lits ("PG_"),
    [Tok.wb] ++ lits ("COPY") ++ [Tok.ws1],
    [Tok.wb] ++ lits ("UNION") ++ [Tok.ws1] ++ lits ("ALL") ++ [Tok.ws1] ++ lits ("SELECT") ]

/-- Allow-list `ALLOWED_SQL_PATTERNS` from `db_utils.py` (each is anchored by
`re.match`; the leading `^` of the source pattern is implied by that). -/
def ALLOWED_SQL_PATTERNS : List (List Tok) :=
  [ [Tok.ws0] ++ lits ("SELECT") ++ [Tok.ws1],
    [Tok.ws0] ++ lits ("WITH") ++ [Tok.ws1],
    [Tok.ws0] ++ lits ("EXPLAIN") ++ [Tok.ws1] ]

/-! The complexity analyzer `analyze_query_complexity`. -/

/-- Scan for the first `')'` on the current line; on success return the
suffix after it.  This is the completion step of one non-greedy match of
`\(.*?\)` (Python `.` does not cross a newline). -/
def findClose : List Char → Option (List Char)
  | [] => none
  | c :: rest => if c = ')' then some rest else if c = '\n' then none else findClose rest

/-- Fuel-based scan for `re.sub(r'\(.*?\)', '', s)`: scanning left to
right, each `'('` that has a matching `')'` on the same line is deleted
together with everything up to and including that `')'`; a `'('` with no
such `')'` is kept and scanning continues.  Every recursive call strictly
shrinks the list (`findClose_length`), so with fuel exceeding the length
the fuel-exhaustion branch is unreachable. -/
def stripParensFuel : Nat → List Char → List Char
  | 0, l => l
  | _ + 1, [] => []
  | fuel + 1, c :: rest =>
    if c = '(' then
      match findClose rest with
      | some rest' => stripParensFuel fuel rest'
      | none => c :: stripParensFuel fuel rest
    else c :: stripParensFuel fuel rest

/-- Model of `re.sub(r'\(.*?\)', '', s)` with always-sufficient fuel. -/
def stripParens (l : List Char) : List Char :=
  stripParensFuel (l.length + 1) l

/-- The three values `estimated_cost` can take in `db_utils.py`
(the strings `"low"`, `"high"`, `"very_high"`). -/
inductive Cost where
  | low
  | high
  | very_high
deriving DecidableEq, Repr

/-- The three warning messages `analyze_query_complexity` can append:
`"Cross join detected"`, `"Multiple joins detected (n)"` (carrying the
join count) and `"Expensive subquery pattern detected"`. -/
inductive Warning where
  | crossJoin
  | multipleJoins (n : Nat)
  | expensiveSubquery
deriving DecidableEq, Repr

/-- The dictionary returned by `analyze_query_complexity`. -/
structure Complexity where
  is_expensive : Bool
  join_count : Nat
  has_cross_join : Bool
  has_multiple_joins : Bool
  estimated_cost : Cost
  warnings : List Warning
deriving DecidableEq, Repr

/-- The upper-cased, parenthetical-stripped text the analyzer works on. -/
def strippedUpper (q : List Char) : List Char :=
  stripParens (upperL q)

/-- Pattern `\bCROSS\s+JOIN\b`. -/
def crossJoinPat : List Tok :=
  [Tok.wb] ++ lits ("CROSS") ++ [Tok.ws1] ++ lits ("JOIN") ++ [Tok.wb]

/-- The five join-counting patterns (`\bINNER\s+JOIN\b`, `\bLEFT\s+JOIN\b`,
`\bRIGHT\s+JOIN\b`, `\bFULL\s+JOIN\b`, `\bJOIN\b`). -/
def joinPatterns : List (List Tok) :=
  [ [Tok.wb] ++ lits ("INNER") ++ [Tok.ws1] ++ lits ("JOIN") ++ [Tok.wb],
    [Tok.wb] ++ lits ("LEFT") ++ [Tok.ws1] ++ lits ("JOIN") ++ [Tok.wb],
    [Tok.wb] ++ lits ("RIGHT") ++ [Tok.ws1] ++ lits ("JOIN") ++ [Tok.wb],
    [Tok.wb] ++ lits ("FULL") ++ [Tok.ws1] ++ lits ("JOIN") ++ [Tok.wb],
    kwPat ("JOIN") ]

/-- Pattern `SELECT\s+\*.*FROM.*WHERE.*IN\s*\(\s*SELECT`. -/
def subq1Pat : List Tok :=
  lits ("SELECT") ++ [Tok.ws1, Tok.chr '*', Tok.anyStar] ++ lits ("FROM") ++
    [Tok.anyStar] ++ lits ("WHERE") ++ [Tok.anyStar] ++ lits ("IN") ++
    [Tok.ws0, Tok.chr '(', Tok.ws0] ++ lits ("SELECT")

/-- Pattern `EXISTS\s*\(\s*SELECT.*FROM.*WHERE`. -/
def subq2Pat : List Tok :=
  lits ("EXISTS") ++ [Tok.ws0, Tok.chr '(', Tok.ws0] ++ lits ("SELECT") ++
    [Tok.anyStar] ++ lits ("FROM") ++ [Tok.anyStar] ++ lits ("WHERE")

/-- The cross-join test of the analyzer. -/
def crossB (q : List Char) : Bool :=
  reSearch crossJoinPat (strippedUpper q)

/-- Model of `total_joins`: the summed `re.findall` counts of the five join
patterns. -/
def joinTotal (q : List Char) : Nat :=
  (joinPatterns.map (fun p => countMatches p (strippedUpper q))).sum

/-- First expensive-subquery test of the analyzer. -/
def subq1B (q : List Char) : Bool :=
  reSearch subq1Pat (strippedUpper q)

/-- Second expensive-subquery test of the analyzer. -/
def subq2B (q : List Char) : Bool :=
  reSearch subq2Pat (strippedUpper q)

/-- Threshold `MAX_JOINS_THRESHOLD` from `analyze_query_complexity`. -/
def MAX_JOINS_THRESHOLD : Nat := 8

/-- One iteration of the analyzer's loop over the two expensive-subquery
patterns: on a match set `is_expensive`, escalate `estimated_cost` to
`high` if currently `low`, append the warning. -/
def subqStep (matched : Bool) (c : Complexity) : Complexity :=
  if matched then
    { c with
      is_expensive := true,
      estimated_cost := if c.estimated_cost = Cost.low then Cost.high else c.estimated_cost,
      warnings := c.warnings ++ [Warning.expensiveSubquery] }
  else c

/-- The analyzer's state after the initial dictionary and the cross-join
branch of `analyze_query_complexity`. -/
def analyzeCrossStage (q : List Char) : Complexity :=
  { is_expensive := crossB q,
    join_count := 0,
    has_cross_join := crossB q,
    has_multiple_joins := false,
    estimated_cost := if crossB q then Cost.very_high else Cost.low,
    warnings := if crossB q then [Warning.crossJoin] else [] }

/-- The analyzer's state after storing `join_count` and running the
`total_joins > MAX_JOINS_THRESHOLD` branch (which sets `estimated_cost`
to `high` unconditionally). -/
def analyzeJoinStage (q : List Char) : Complexity :=
  let c1 := { analyzeCrossStage q with join_count := joinTotal q }
  if joinTotal q > MAX_JOINS_THRESHOLD then
    { c1 with
      has_multiple_joins := true,
      is_expensive := true,
      estimated_cost := Cost.high,
      warnings := c1.warnings ++ [Warning.multipleJoins (joinTotal q)] }
  else c1

/-- Function `analyze_query_complexity` from `db_utils.py`, step for step: the
cross-join branch, the join count with its threshold branch, then the
loop over the two expensive-subquery patterns unrolled to its two
iterations. -/
def analyze_query_complexity (q : List Char) : Complexity :=
  subqStep (subq2B q) (subqStep (subq1B q) (analyzeJoinStage q))

/-! The safety gate `is_safe_sql` and the executor `safe_db_run`. -/

/-- Function `is_safe_sql` from `db_utils.py`, parameterized by the configured
`DB_SCHEMA`: reject empty input; reject on any deny-list match against the
upper-cased, stripped query; require the schema-qualification substring
(bare `SCHEMA.` or quoted `"SCHEMA".`, upper-cased); require an
allow-listed leading keyword (`re.match`); reject if the complexity
analyzer (run on the original query text) marks the query expensive. -/
def is_safe_sql (schema : List Char) (q : List Char) : Bool :=
  if q.isEmpty then false
  else
    let nq := pyStrip (upperL q)
    if BLOCKED_SQL_PATTERNS.any (fun p => reSearch p nq) then false
    else
      let requiredSchemaQual := upperL schema ++ [ '.' ]
      let quotedSchemaQual := [ '"' ] ++ upperL schema ++ [ '"', '.' ]
      if !containsSub requiredSchemaQual nq && !containsSub quotedSchemaQual nq then false
      else if !ALLOWED_SQL_PATTERNS.any (fun p => reMatchB p nq) then false
      else if (analyze_query_complexity q).is_expensive then false
      else true

/-- The fixed rejection message of `safe_db_run`. -/
def securityRejectMsg : List Char :=
  strL ("Error: Query blocked for security reasons")

/-- Function `safe_db_run` from `db_utils.py`.  The database call
(`engine.connect` / `conn.execute`) is an oracle `dbExec` over the query
text and the optional parameter mapping; it either returns the structured
rows (of abstract type `R`) or raises an exception carrying a message
(`Except.error`).  `safe_db_run` first applies the gate, then executes,
catching any exception and returning the `Error:`-prefixed message; it is
a total function, so no exception ever propagates to the caller. -/
def safe_db_run {R P : Type} (schema : List Char)
    (dbExec : List Char → Option P → Except (List Char) R)
    (q : List Char) (params : Option P) : R ⊕ List Char :=
  if !is_safe_sql schema q then Sum.inr securityRejectMsg
  else
    match dbExec q params with
    | Except.ok rows => Sum.inl rows
    | Except.error e => Sum.inr (strL ("Error: ") ++ e)

/-! The result cache `cached_query_execution` (`db_utils.py` lines
217-239).  The redis client is modelled as an optional backend holding a
key-value store plus flags saying whether its read (`get`) or write
(`setex`) calls raise; `json.dumps` / `json.loads` are the abstract
serializer pair `ser` / `deser`; `get_query_hash` is the abstract `hash`.
The Python code mutates the external redis store, so the model returns
the possibly-updated backend alongside the result. -/

structure RedisBackend (V : Type) where
  store : List Char → Option V
  readFails : Bool
  writeFails : Bool

/-- Model of `redis_client.get`: raises when the backend is broken for reads. -/
def redisGet {V : Type} (rc : RedisBackend V) (k : List Char) : Except Unit (Option V) :=
  if rc.readFails then Except.error () else Except.ok (rc.store k)

/-- Model of `redis_client.setex`: raises when the backend is broken for writes,
otherwise stores the value under the key. -/
def redisSetex {V : Type} (rc : RedisBackend V) (k : List Char) (v : V) :
    Except Unit (RedisBackend V) :=
  if rc.writeFails then Except.error ()
  else Except.ok { rc with store := fun k2 => if k2 = k then some v else rc.store k2 }

/-- The guard on caching in `cached_query_execution`: results are cached
unless they are a string starting with `"Error:"` (a non-string result,
i.e. a row list, is always cached). -/
def cacheableResult {R : Type} : R ⊕ List Char → Bool
  | Sum.inl _ => true
  | Sum.inr s => !isPrefixL (strL ("Error:")) s

/-- Function `cached_query_execution` from `db_utils.py`: without a configured
backend, compute directly; otherwise try the cache read (an exception or
a miss both fall through to direct computation), return a deserialized
hit as-is, and after a miss cache the computed result when it is not an
`Error:` string, swallowing any write exception. -/
def cached_query_execution {R P V : Type} (schema : List Char)
    (dbExec : List Char → Option P → Except (List Char) R)
    (hash : List Char → List Char)
    (ser : R ⊕ List Char → V) (deser : V → R ⊕ List Char)
    (redis : Option (RedisBackend V)) (q : List Char) :
    (R ⊕ List Char) × Option (RedisBackend V) :=
  match redis with
  | none => (safe_db_run schema dbExec q none, none)
  | some rc =>
    let key := strL ("query_result:") ++ hash q
    match redisGet rc key with
    | Except.ok (some v) => (deser v, some rc)
    | _ =>
      let result := safe_db_run schema dbExec q none
      if cacheableResult result then
        match redisSetex rc key (ser result) with
        | Except.ok rc2 => (result, some rc2)
        | Except.error _ => (result, some rc)
      else (result, some rc)

/-! The program's serializer pair is not a parameter: `cached_query_execution`
always stores `json.dumps(result, default=str)` and always returns
`json.loads(cached_result)` on a hit (`db_utils.py` lines 228 and 235).
To analyse the served-hit behaviour concretely, that fixed round trip is
modelled on the cell values a result row can reach: JSON-native strings
and non-JSON-native `datetime` values (the repository itself handles
`datetime`/`Decimal` cells in `raw_db_result`, `workflow.py` lines
185-190). -/

/-- Cell values reachable in a database result for the round-trip
analysis: a JSON string, or a Python `datetime` carrying its `str()`
rendering. -/
inductive JValue where
  | jstr (s : List Char)
  | jdatetime (s : List Char)
deriving DecidableEq, Repr

/-- Model of `json.dumps(result, default=str)` (`db_utils.py` line 235)
on a single-cell result: a JSON string is written as a quoted string; a
`datetime` is not JSON-serializable, so `default=str` renders it through
`str()` and it is likewise written as a quoted plain string,
indistinguishable from one.  An `Error:` string result is never cached,
so its serialization is immaterial; it is kept as its own text. -/
def jsonDumpsDS : JValue ⊕ List Char → List Char
  | Sum.inl (JValue.jstr s) => [ '"' ] ++ s ++ [ '"' ]
  | Sum.inl (JValue.jdatetime s) => [ '"' ] ++ s ++ [ '"' ]
  | Sum.inr e => e

/-- Model of `json.loads` (`db_utils.py` line 228) on the texts the cache
can hold: a quoted string parses back to a plain JSON string — any
`datetime` provenance is lost.  No other text is ever stored by
`cached_query_execution`; unquoted input is returned unparsed. -/
def jsonLoads : List Char → JValue ⊕ List Char
  | '"' :: rest => Sum.inl (JValue.jstr (rest.takeWhile (fun c => !(c = '"'))))
  | v => Sum.inr v

/-- A database oracle whose single result cell is a `datetime` value, as
returned by the driver for a timestamp column. -/
def dtOracle : List Char → Option Unit → Except (List Char) JValue :=
  fun _ _ => Except.ok (JValue.jdatetime (strL ("2024-01-01 00:00:00")))

/-- A database oracle whose single result cell is a JSON string. -/
def strOracle : List Char → Option Unit → Except (List Char) JValue :=
  fun _ _ => Except.ok (JValue.jstr (strL ("alice")))

/-- An empty, healthy cache backend over serialized texts. -/
def emptyBackend : RedisBackend (List Char) :=
  { store := fun _ => none, readFails := false, writeFails := false }

/-! The correction/retry loop of the orchestrator (`workflow.py`): the
nodes `execute_sql_node`, `correction_node`, the router
`decide_after_execution`, and the sub-graph
`execute_sql → (attempt_correction → execute_sql)* → {format_answer |
handle_error}` they form.  The fields of `WorkflowState` the loop reads
or writes are kept; the LLM correction oracle is `gen` and the
`execute_sql_query` tool is the oracle `tool` returning the stringified
result. -/

/-- Bound `MAX_CORRECTION_ATTEMPTS` from `workflow.py`. -/
def MAX_CORRECTION_ATTEMPTS : Nat := 3

structure WState where
  generated_sql : List Char
  db_result : Option (List Char)
  error_message : Option (List Char)
  correction_attempts : Nat

/-- Predicate `is_db_error` from `workflow.py`: a non-`None` result whose stripped
text starts with `"Error:"`. -/
def is_db_error : Option (List Char) → Bool
  | none => false
  | some s => isPrefixL (strL ("Error:")) (pyStrip s)

/-- Node `execute_sql_node` from `workflow.py` (the message-trace bookkeeping
and `raw_db_result` are not read by the loop and are omitted). -/
def execute_sql_node (tool : List Char → List Char) (s : WState) : WState :=
  if s.generated_sql.isEmpty then
    { s with
      db_result := some (strL ("Error: No SQL query generated.")),
      error_message := some (strL ("No SQL query generated.")) }
  else { s with db_result := some (tool s.generated_sql) }

inductive Route where
  | attempt_correction
  | handle_error
  | format_answer
deriving DecidableEq, Repr

/-- Router `decide_after_execution` from `workflow.py`: on an `Error:` result,
retry while the counter is below the ceiling, else hand off to the error
handler; on success, format the answer. -/
def decide_after_execution (s : WState) : Route :=
  if is_db_error s.db_result then
    if s.correction_attempts < MAX_CORRECTION_ATTEMPTS then Route.attempt_correction
    else Route.handle_error
  else Route.format_answer

/-- Node `correction_node` from `workflow.py`: replace the candidate with the
oracle's correction, increment the counter by exactly one, clear the
stored result and error. -/
def correction_node (gen : WState → List Char) (s : WState) : WState :=
  { s with
    generated_sql := gen s,
    correction_attempts := s.correction_attempts + 1,
    db_result := none,
    error_message := none }

/-- The retry loop: run `execute_sql_node`, route, and either loop through
`correction_node` (edge `attempt_correction → execute_sql`) or stop at a
terminal route.  `fuel` bounds the number of executions inspected; `none`
means the loop was still running when the fuel ran out. -/
def run_loop (tool : List Char → List Char) (gen : WState → List Char) :
    Nat → WState → Option (Route × WState)
  | 0, _ => none
  | fuel + 1, s =>
    let s1 := execute_sql_node tool s
    match decide_after_execution s1 with
    | Route.attempt_correction => run_loop tool gen fuel (correction_node gen s1)
    | r => some (r, s1)

/-- Terminal route and final correction counter of a loop run. -/
def loopSummary (o : Option (Route × WState)) : Option (Route × Nat) :=
  o.map (fun p => (p.1, p.2.correction_attempts))

-- scratch tests
example : upperL (strL ("aB c")) = strL ("AB C") := by decide
example : pyStrip (strL ("  x y  ")) = strL ("x y") := by decide
example : containsSub (strL ("INFO.")) (strL ("SELECT X FROM INFO.T")) = true := by decide
example : reSearch (kwPat ("DROP")) (strL ("A DROP B")) = true := by decide
example : reSearch (kwPat ("DROP")) (strL ("A DROPX B")) = false := by decide
example : countMatches (kwPat ("JOIN")) (strL ("A JOIN B LEFT JOIN C")) = 2 := by decide
example : stripParens (strL ("A (B) C ((D) E")) = strL ("A  C  E") := by decide
example : (analyze_query_complexity (strL ("A LEFT JOIN B"))).join_count = 2 := by decide
example : (analyze_query_complexity (strL ("A CROSS JOIN B"))).estimated_cost = Cost.very_high := by decide
example : is_safe_sql (strL ("info")) (strL ("SELECT * FROM info.customers")) = true := by decide
example : is_safe_sql (strL ("info")) (strL ("SELECT * FROM customers")) = false := by decide
example : is_safe_sql (strL ("info")) (strL ("DROP TABLE info.customers")) = false := by decide
example : is_safe_sql (strL ("info")) (strL ("SELECT A FROM INFO.T WHERE X = 1 ; --")) = true := by decide
example : is_safe_sql (strL ("info")) (strL ("SELECT A FROM INFO.T WHERE X; --")) = false := by decide
example : is_safe_sql (strL ("info")) (strL ("")) = false := by decide
example : (analyze_query_complexity (strL ("A CROSS JOIN B"))).join_count = 1 := by decide
example : analyze_query_complexity
    (strL ("A CROSS JOIN XB CROSS JOIN XC CROSS JOIN XD CROSS JOIN XE CROSS JOIN XF CROSS JOIN XG CROSS JOIN XH CROSS JOIN XI CROSS JOIN XJ")) =
    { is_expensive := true, join_count := 9, has_cross_join := true,
      has_multiple_joins := true, estimated_cost := Cost.high,
      warnings := [Warning.crossJoin, Warning.multipleJoins 9] } := by decide
example : analyze_query_complexity (strL ("SELECT * FROM S.T WHERE X IN (SELECT")) =
    { is_expensive := true, join_count := 0, has_cross_join := false,
      has_multiple_joins := false, estimated_cost := Cost.high,
      warnings := [Warning.expensiveSubquery] } := by decide
example : (analyze_query_complexity (strL ("SELECT * FROM S.T WHERE X IN (SELECT Y FROM U)"))).is_expensive = false := by decide

/-! General lemmas about the string model. -/

theorem findClose_length {l l' : List Char} (h : findClose l = some l') :
    l'.length < l.length := by
  induction l with
  | nil => simp [findClose] at h
  | cons c rest ih =>
    by_cases hc : c = ')'
    · simp [findClose, hc] at h
      subst h
      simp [Nat.lt_succ_self]
    · by_cases hn : c = '\n'
      · simp [findClose, hc, hn] at h
      · simp [findClose, hc, hn] at h
        exact Nat.lt_trans (ih h) (Nat.lt_succ_self _)

theorem isPrefixL_iff (p s : List Char) : isPrefixL p s = true ↔ ∃ v, s = p ++ v := by
  induction p generalizing s with
  | nil =>
    simp [isPrefixL]
  | cons a as ih =>
    cases s with
    | nil =>
      simp [isPrefixL]
    | cons b bs =>
      by_cases hab : a = b
      · subst hab
        simp [isPrefixL, ih]
      · have hL : isPrefixL (a :: as) (b :: bs) = false := by simp [isPrefixL, hab]
        rw [hL]
        simp only [Bool.false_eq_true, false_iff]
        rintro ⟨v, hv⟩
        injection hv with h1 _
        exact hab h1.symm

theorem containsSub_iff (p s : List Char) :
    containsSub p s = true ↔ ∃ u v, s = u ++ p ++ v := by
  induction s with
  | nil =>
    constructor
    · intro h
      rw [containsSub, isPrefixL_iff] at h
      obtain ⟨v, hv⟩ := h
      exact ⟨[], v, by simp [hv]⟩
    · intro h
      obtain ⟨u, v, huv⟩ := h
      have hu : u = [] := by
        cases u with
        | nil => rfl
        | cons x xs => simp at huv
      subst hu
      simp at huv
      rw [containsSub, isPrefixL_iff]
      exact ⟨v, by simp [huv]⟩
  | cons c rest ih =>
    constructor
    · intro h
      rw [containsSub] at h
      rcases Bool.or_eq_true_iff.mp h with h1 | h2
      · obtain ⟨v, hv⟩ := (isPrefixL_iff p (c :: rest)).mp h1
        exact ⟨[], v, by simp [hv]⟩
      · obtain ⟨u, v, huv⟩ := ih.mp h2
        exact ⟨c :: u, v, by simp [huv]⟩
    · intro h
      obtain ⟨u, v, huv⟩ := h
      rw [containsSub]
      apply Bool.or_eq_true_iff.mpr
      cases u with
      | nil =>
        left
        rw [isPrefixL_iff]
        exact ⟨v, by simpa using huv⟩
      | cons x xs =>
        right
        apply ih.mpr
        refine ⟨xs, v, ?_⟩
        have := huv
        simp at this
        simpa [List.append_assoc] using this.2

theorem dropLeadWs_decomp (s : List Char) : ∃ u, s = u ++ dropLeadWs s :=
  ⟨s.takeWhile isPySpace, (List.takeWhile_append_dropWhile ..).symm⟩

theorem dropTrailWs_decomp (s : List Char) : ∃ v, s = dropTrailWs s ++ v := by
  refine ⟨(s.reverse.takeWhile isPySpace).reverse, ?_⟩
  rw [dropTrailWs]
  rw [← List.reverse_append]
  rw [List.takeWhile_append_dropWhile]
  rw [List.reverse_reverse]

theorem pyStrip_decomp (s : List Char) : ∃ u v, s = u ++ pyStrip s ++ v := by
  obtain ⟨u, hu⟩ := dropLeadWs_decomp s
  obtain ⟨v, hv⟩ := dropTrailWs_decomp (dropLeadWs s)
  refine ⟨u, v, ?_⟩
  rw [pyStrip, List.append_assoc, ← hv, ← hu]

theorem containsSub_of_strip {p s : List Char} (h : containsSub p (pyStrip s) = true) :
    containsSub p s = true := by
  obtain ⟨u, v, huv⟩ := pyStrip_decomp s
  obtain ⟨a, b, hab⟩ := (containsSub_iff p (pyStrip s)).mp h
  apply (containsSub_iff p s).mpr
  refine ⟨u ++ a, b ++ v, ?_⟩
  rw [huv, hab]
  simp

/-! Claim theorems. -/

/-- C1: for every query on which the safety classifier returns `false`,
`safe_db_run` returns the fixed `Error:`-prefixed rejection message, and
it does so for every database oracle and parameter mapping alike — the
database branch is unreachable for unsafe input. -/
theorem C1_rejected_never_reaches_db {R P : Type} (schema q : List Char)
    (h : is_safe_sql schema q = false) :
    ∀ (dbExec : List Char → Option P → Except (List Char) R) (params : Option P),
      safe_db_run schema dbExec q params = Sum.inr securityRejectMsg := by
  intro dbExec params
  simp [safe_db_run, h]

/-- Witness for C1 at a concrete unsafe query. -/
theorem C1_rejected_never_reaches_db_witness :
    safe_db_run (strL ("info"))
      (fun (_ : List Char) (_ : Option Unit) => Except.ok (7 : Nat))
      (strL ("DROP TABLE info.customers")) none = Sum.inr securityRejectMsg :=
  C1_rejected_never_reaches_db (strL ("info")) (strL ("DROP TABLE info.customers"))
    (by decide) _ none

/-- C2: if the upper-cased required schema qualification — bare
`SCHEMA.` or quoted `"SCHEMA".` — is absent as a substring of the
upper-cased query, `is_safe_sql` returns `false`, regardless of any
other property of the query. -/
theorem C2_schema_qualification_required (schema q : List Char)
    (h1 : containsSub (upperL schema ++ [ '.' ]) (upperL q) = false)
    (h2 : containsSub ([ '"' ] ++ upperL schema ++ [ '"', '.' ]) (upperL q) = false) :
    is_safe_sql schema q = false := by
  have hreq : containsSub (upperL schema ++ [ '.' ]) (pyStrip (upperL q)) = false := by
    cases hb : containsSub (upperL schema ++ [ '.' ]) (pyStrip (upperL q)) with
    | false => rfl
    | true => rw [containsSub_of_strip hb] at h1; exact h1
  have hquo : containsSub ([ '"' ] ++ upperL schema ++ [ '"', '.' ]) (pyStrip (upperL q)) = false := by
    cases hb : containsSub ([ '"' ] ++ upperL schema ++ [ '"', '.' ]) (pyStrip (upperL q)) with
    | false => rfl
    | true => rw [containsSub_of_strip hb] at h2; exact h2
  have hquo' : containsSub ('"' :: (upperL schema ++ [ '"', '.' ])) (pyStrip (upperL q)) = false := by
    simpa using hquo
  by_cases he : q.isEmpty
  · simp [is_safe_sql, he]
  · simp [is_safe_sql, he, hreq, hquo']

/-- Witness for C2: a query with no schema qualification is rejected. -/
theorem C2_schema_qualification_required_witness :
    is_safe_sql (strL ("info")) (strL ("SELECT * FROM customers")) = false :=
  C2_schema_qualification_required (strL ("info")) (strL ("SELECT * FROM customers"))
    (by decide) (by decide)

/-- C3 counterexample: the claim says any query containing the
statement-chaining marker `; --` anywhere in its text is rejected, but
the deny-list pattern is `\b;\s*--`, whose word boundary requires a word
character immediately before the semicolon; with a space before the
semicolon the query below contains `; --` yet passes the whole gate. -/
theorem C3_counterexample :
    containsSub (strL ("; --")) (upperL (strL ("SELECT A FROM INFO.T WHERE X = 1 ; --"))) = true ∧
    is_safe_sql (strL ("info")) (strL ("SELECT A FROM INFO.T WHERE X = 1 ; --")) = true := by
  constructor
  · decide
  · decide

/-- C3 amended: whenever any deny-list pattern matches the upper-cased,
trimmed query under the regex semantics of `BLOCKED_SQL_PATTERNS` — a
DML/DDL keyword as a standalone word; `; --` or `; #` with a word
character immediately before the semicolon; `SHUTDOWN` as a standalone
word; `XP_` preceded by a boundary and followed by a non-word character;
`FROM` then whitespace then `PG_`; `COPY` (standalone) followed by
whitespace; `UNION ALL SELECT` — `is_safe_sql` returns `false`, even for
a schema-qualified, `SELECT`-shaped query. -/
theorem C3_amended_deny_list (schema q : List Char)
    (h : BLOCKED_SQL_PATTERNS.any (fun p => reSearch p (pyStrip (upperL q))) = true) :
    is_safe_sql schema q = false := by
  by_cases he : q.isEmpty
  · simp [is_safe_sql, he]
  · simp [is_safe_sql, he, h]

/-- Witness for C3 amended: a schema-qualified `SELECT`-shaped query
containing the standalone keyword `INSERT` is rejected. -/
theorem C3_amended_deny_list_witness :
    is_safe_sql (strL ("info")) (strL ("SELECT * FROM INFO.T WHERE INSERT")) = false :=
  C3_amended_deny_list (strL ("info")) (strL ("SELECT * FROM INFO.T WHERE INSERT"))
    (by decide)

/-- C5: whenever the database call raises (any database-level failure:
syntax error, permission error, timeout, connection failure), the
executor catches it and returns the string `"Error: "` followed by the
underlying message; being a total function it propagates no exception. -/
theorem C5_executor_never_raises {R P : Type} (schema q : List Char)
    (dbExec : List Char → Option P → Except (List Char) R)
    (params : Option P) (e : List Char)
    (hsafe : is_safe_sql schema q = true)
    (hdb : dbExec q params = Except.error e) :
    safe_db_run schema dbExec q params = Sum.inr (strL ("Error: ") ++ e) := by
  simp [safe_db_run, hsafe, hdb]

/-- Witness for C5 at a concrete failing database call. -/
theorem C5_executor_never_raises_witness :
    safe_db_run (strL ("info"))
      (fun (_ : List Char) (_ : Option Unit) =>
        (Except.error (strL ("syntax error")) : Except (List Char) Nat))
      (strL ("SELECT * FROM info.customers")) none =
      Sum.inr (strL ("Error: ") ++ strL ("syntax error")) :=
  C5_executor_never_raises (strL ("info")) (strL ("SELECT * FROM info.customers"))
    _ none (strL ("syntax error")) (by decide) rfl


/-! Field lemmas for the analyzer stages. -/

theorem subqStep_has_cross (m : Bool) (c : Complexity) :
    (subqStep m c).has_cross_join = c.has_cross_join := by
  cases m <;> simp [subqStep]

theorem subqStep_join_count (m : Bool) (c : Complexity) :
    (subqStep m c).join_count = c.join_count := by
  cases m <;> simp [subqStep]

theorem subqStep_expensive (m : Bool) (c : Complexity) :
    (subqStep m c).is_expensive = (m || c.is_expensive) := by
  cases m <;> simp [subqStep]

theorem subqStep_cost (m : Bool) (c : Complexity) :
    (subqStep m c).estimated_cost =
      if m = true ∧ c.estimated_cost = Cost.low then Cost.high else c.estimated_cost := by
  cases m <;> simp [subqStep]

theorem subqStep_warn_mono {w : Warning} {c : Complexity} (m : Bool)
    (h : w ∈ c.warnings) : w ∈ (subqStep m c).warnings := by
  cases m <;> simp [subqStep, h]

theorem subqStep_warn_hit (c : Complexity) :
    Warning.expensiveSubquery ∈ (subqStep true c).warnings := by
  simp [subqStep]

theorem joinStage_has_cross (q : List Char) :
    (analyzeJoinStage q).has_cross_join = crossB q := by
  by_cases hj : joinTotal q > MAX_JOINS_THRESHOLD <;>
    simp [analyzeJoinStage, analyzeCrossStage, hj]

theorem joinStage_join_count (q : List Char) :
    (analyzeJoinStage q).join_count = joinTotal q := by
  by_cases hj : joinTotal q > MAX_JOINS_THRESHOLD <;>
    simp [analyzeJoinStage, analyzeCrossStage, hj]

theorem joinStage_expensive (q : List Char) :
    (analyzeJoinStage q).is_expensive =
      (crossB q || decide (joinTotal q > MAX_JOINS_THRESHOLD)) := by
  by_cases hj : joinTotal q > MAX_JOINS_THRESHOLD <;>
    simp [analyzeJoinStage, analyzeCrossStage, hj]

theorem joinStage_cost (q : List Char) :
    (analyzeJoinStage q).estimated_cost =
      (if joinTotal q > MAX_JOINS_THRESHOLD then Cost.high
       else if crossB q then Cost.very_high else Cost.low) := by
  by_cases hj : joinTotal q > MAX_JOINS_THRESHOLD <;>
    simp [analyzeJoinStage, analyzeCrossStage, hj]

theorem joinStage_warnings (q : List Char) :
    (analyzeJoinStage q).warnings =
      (if crossB q then [Warning.crossJoin] else []) ++
        (if joinTotal q > MAX_JOINS_THRESHOLD then [Warning.multipleJoins (joinTotal q)]
         else []) := by
  by_cases hj : joinTotal q > MAX_JOINS_THRESHOLD <;>
    simp [analyzeJoinStage, analyzeCrossStage, hj]

theorem analyze_has_cross (q : List Char) :
    (analyze_query_complexity q).has_cross_join = crossB q := by
  rw [analyze_query_complexity, subqStep_has_cross, subqStep_has_cross, joinStage_has_cross]

theorem analyze_join_count (q : List Char) :
    (analyze_query_complexity q).join_count = joinTotal q := by
  rw [analyze_query_complexity, subqStep_join_count, subqStep_join_count, joinStage_join_count]

theorem analyze_expensive (q : List Char) :
    (analyze_query_complexity q).is_expensive =
      (crossB q || decide (joinTotal q > MAX_JOINS_THRESHOLD) || subq1B q || subq2B q) := by
  rw [analyze_query_complexity, subqStep_expensive, subqStep_expensive, joinStage_expensive]
  cases crossB q <;> cases subq1B q <;> cases subq2B q <;> simp

theorem analyze_cost (q : List Char) :
    (analyze_query_complexity q).estimated_cost =
      (if joinTotal q > MAX_JOINS_THRESHOLD then Cost.high
       else if crossB q then Cost.very_high
       else if subq1B q || subq2B q then Cost.high
       else Cost.low) := by
  rw [analyze_query_complexity, subqStep_cost, subqStep_cost, joinStage_cost]
  by_cases hj : joinTotal q > MAX_JOINS_THRESHOLD <;>
    cases hc : crossB q <;> cases h1 : subq1B q <;> cases h2 : subq2B q <;>
      simp [hj]

theorem analyze_warn_nonempty (q : List Char)
    (h : crossB q = true ∨ joinTotal q > MAX_JOINS_THRESHOLD ∨
      subq1B q = true ∨ subq2B q = true) :
    (analyze_query_complexity q).warnings ≠ [] := by
  rcases h with hc | hj | h1 | h2
  · have : Warning.crossJoin ∈ (analyze_query_complexity q).warnings := by
      rw [analyze_query_complexity]
      apply subqStep_warn_mono
      apply subqStep_warn_mono
      rw [joinStage_warnings, hc]
      simp
    exact fun he => by simp [he] at this
  · have : Warning.multipleJoins (joinTotal q) ∈ (analyze_query_complexity q).warnings := by
      rw [analyze_query_complexity]
      apply subqStep_warn_mono
      apply subqStep_warn_mono
      rw [joinStage_warnings, if_pos hj]
      simp
    exact fun he => by simp [he] at this
  · have : Warning.expensiveSubquery ∈ (analyze_query_complexity q).warnings := by
      rw [analyze_query_complexity]
      apply subqStep_warn_mono
      rw [h1]
      exact subqStep_warn_hit _
    exact fun he => by simp [he] at this
  · have : Warning.expensiveSubquery ∈ (analyze_query_complexity q).warnings := by
      rw [analyze_query_complexity, h2]
      exact subqStep_warn_hit _
    exact fun he => by simp [he] at this

/-- C6 counterexample: a query containing `CROSS JOIN` whose join count
exceeds the threshold ends with `estimated_cost = high`, not
`very_high` — the multiple-joins branch of `analyze_query_complexity`
overwrites `estimated_cost` unconditionally, with no
already-`very_high` guard. -/
theorem C6_counterexample :
    crossB (strL ("A CROSS JOIN B JOIN C JOIN D JOIN E JOIN F JOIN G JOIN H JOIN I JOIN J")) = true ∧
    (analyze_query_complexity (strL ("A CROSS JOIN B JOIN C JOIN D JOIN E JOIN F JOIN G JOIN H JOIN I JOIN J"))).has_cross_join = true ∧
    (analyze_query_complexity (strL ("A CROSS JOIN B JOIN C JOIN D JOIN E JOIN F JOIN G JOIN H JOIN I JOIN J"))).estimated_cost = Cost.high ∧
    (analyze_query_complexity (strL ("A CROSS JOIN B JOIN C JOIN D JOIN E JOIN F JOIN G JOIN H JOIN I JOIN J"))).estimated_cost ≠ Cost.very_high := by
  refine ⟨by decide, by decide, by decide, by decide⟩

/-- C6 amended: a `CROSS JOIN` in the stripped upper-cased text always
yields `has_cross_join = true` and `is_expensive = true`, and yields
`estimated_cost = very_high` when the join count stays within the
threshold; when the join count exceeds the threshold the multiple-joins
branch unconditionally overwrites `estimated_cost` to `high`. -/
theorem C6_cross_join_amended (q : List Char) (hc : crossB q = true) :
    (analyze_query_complexity q).has_cross_join = true ∧
    (analyze_query_complexity q).is_expensive = true ∧
    (joinTotal q ≤ MAX_JOINS_THRESHOLD →
      (analyze_query_complexity q).estimated_cost = Cost.very_high) ∧
    (MAX_JOINS_THRESHOLD < joinTotal q →
      (analyze_query_complexity q).estimated_cost = Cost.high) := by
  refine ⟨?_, ?_, ?_, ?_⟩
  · rw [analyze_has_cross, hc]
  · rw [analyze_expensive, hc]
    simp
  · intro hle
    rw [analyze_cost, if_neg (by omega), if_pos hc]
  · intro hgt
    rw [analyze_cost, if_pos hgt]

/-- Witness for C6 amended at a concrete single cross join. -/
theorem C6_cross_join_amended_witness :
    (analyze_query_complexity (strL ("A CROSS JOIN B"))).has_cross_join = true ∧
    (analyze_query_complexity (strL ("A CROSS JOIN B"))).is_expensive = true ∧
    (analyze_query_complexity (strL ("A CROSS JOIN B"))).estimated_cost = Cost.very_high :=
  ⟨(C6_cross_join_amended (strL ("A CROSS JOIN B")) (by decide)).1,
   (C6_cross_join_amended (strL ("A CROSS JOIN B")) (by decide)).2.1,
   (C6_cross_join_amended (strL ("A CROSS JOIN B")) (by decide)).2.2.1 (by decide)⟩

/-- C7 counterexample: the claim says a `LEFT JOIN` contributes exactly 1
to `join_count` and is not additionally counted under the bare `JOIN`
pattern; but the analyzer runs `re.findall` separately for
`\bLEFT\s+JOIN\b` and for bare `\bJOIN\b`, and a single `LEFT JOIN`
matches both, so it contributes 2. -/
theorem C7_counterexample :
    (analyze_query_complexity (strL ("A LEFT JOIN B"))).join_count = 2 := by
  decide

/-- C7 amended: a `LEFT JOIN` (likewise `INNER`/`RIGHT`/`FULL JOIN`) is
counted once under its specific pattern and once more under the bare
`JOIN` pattern, contributing 2 to `join_count`; the threshold on the
resulting count is exact: with `join_count` = 8, no cross join and no
expensive-subquery match the query is not expensive, while `join_count`
= 9 always yields `is_expensive = true` with `estimated_cost = high`
(hence in `{high, very_high}`) and non-empty warnings. -/
theorem C7_join_count_amended :
    (∀ q : List Char, joinTotal q = 8 → crossB q = false → subq1B q = false →
      subq2B q = false → (analyze_query_complexity q).is_expensive = false) ∧
    (∀ q : List Char, joinTotal q = 9 →
      (analyze_query_complexity q).is_expensive = true ∧
      (analyze_query_complexity q).estimated_cost = Cost.high ∧
      (analyze_query_complexity q).warnings ≠ []) ∧
    countMatches ([Tok.wb] ++ lits ("LEFT") ++ [Tok.ws1] ++ lits ("JOIN") ++ [Tok.wb])
      (strippedUpper (strL ("A LEFT JOIN B"))) = 1 ∧
    countMatches (kwPat ("JOIN")) (strippedUpper (strL ("A LEFT JOIN B"))) = 1 := by
  refine ⟨?_, ?_, by decide, by decide⟩
  · intro q h8 hc h1 h2
    rw [analyze_expensive, hc, h1, h2, h8]
    simp [MAX_JOINS_THRESHOLD]
  · intro q h9
    have hgt : joinTotal q > MAX_JOINS_THRESHOLD := by
      rw [h9]; decide
    refine ⟨?_, ?_, ?_⟩
    · rw [analyze_expensive]
      simp [hgt]
    · rw [analyze_cost, if_pos hgt]
    · exact analyze_warn_nonempty q (Or.inr (Or.inl hgt))

/-- Witness for C7 amended: exactly 8 counted joins are not expensive,
9 are. -/
theorem C7_join_count_amended_witness :
    (analyze_query_complexity (strL ("A JOIN B JOIN C JOIN D JOIN E JOIN F JOIN G JOIN H JOIN I"))).is_expensive = false ∧
    (analyze_query_complexity (strL ("A JOIN B JOIN C JOIN D JOIN E JOIN F JOIN G JOIN H JOIN I JOIN J"))).is_expensive = true :=
  ⟨C7_join_count_amended.1 (strL ("A JOIN B JOIN C JOIN D JOIN E JOIN F JOIN G JOIN H JOIN I"))
      (by decide) (by decide) (by decide) (by decide),
   (C7_join_count_amended.2.1 (strL ("A JOIN B JOIN C JOIN D JOIN E JOIN F JOIN G JOIN H JOIN I JOIN J"))
      (by decide)).1⟩

/-- C8: when either expensive-subquery shape matches the stripped
upper-cased query, the report is expensive, carries the
expensive-subquery warning, and — when neither the cross-join branch nor
the multiple-joins branch fired, so the cost was still `low` — the cost
is escalated to `high`. -/
theorem C8_expensive_subquery (q : List Char)
    (h : subq1B q = true ∨ subq2B q = true) :
    (analyze_query_complexity q).is_expensive = true ∧
    Warning.expensiveSubquery ∈ (analyze_query_complexity q).warnings ∧
    (crossB q = false → joinTotal q ≤ MAX_JOINS_THRESHOLD →
      (analyze_query_complexity q).estimated_cost = Cost.high) := by
  refine ⟨?_, ?_, ?_⟩
  · rw [analyze_expensive]
    rcases h with h1 | h2
    · rw [h1]; simp
    · rw [h2]; simp
  · rcases h with h1 | h2
    · rw [analyze_query_complexity]
      apply subqStep_warn_mono
      rw [h1]
      exact subqStep_warn_hit _
    · rw [analyze_query_complexity, h2]
      exact subqStep_warn_hit _
  · intro hc hle
    rw [analyze_cost, if_neg (by omega), if_neg (by simp [hc]), if_pos (by
      rcases h with h1 | h2
      · rw [h1]; simp
      · rw [h2]; simp)]

/-- Witness for C8 at a concrete `IN (SELECT` query. -/
theorem C8_expensive_subquery_witness :
    (analyze_query_complexity (strL ("SELECT * FROM S.T WHERE X IN (SELECT"))).is_expensive = true ∧
    (analyze_query_complexity (strL ("SELECT * FROM S.T WHERE X IN (SELECT"))).estimated_cost = Cost.high :=
  ⟨(C8_expensive_subquery (strL ("SELECT * FROM S.T WHERE X IN (SELECT"))
      (Or.inl (by decide))).1,
   (C8_expensive_subquery (strL ("SELECT * FROM S.T WHERE X IN (SELECT"))
      (Or.inl (by decide))).2.2 (by decide) (by decide)⟩

/-- C9: the complexity-report invariant — whenever `is_expensive` is
true, `estimated_cost` is not `low` and the warnings list is
non-empty. -/
theorem C9_expensive_invariant (q : List Char)
    (h : (analyze_query_complexity q).is_expensive = true) :
    (analyze_query_complexity q).estimated_cost ≠ Cost.low ∧
    (analyze_query_complexity q).warnings ≠ [] := by
  have hd : crossB q = true ∨ joinTotal q > MAX_JOINS_THRESHOLD ∨
      subq1B q = true ∨ subq2B q = true := by
    rw [analyze_expensive] at h
    rcases Bool.or_eq_true_iff.mp h with h' | h2
    · rcases Bool.or_eq_true_iff.mp h' with h'' | h1
      · rcases Bool.or_eq_true_iff.mp h'' with hc | hj
        · exact Or.inl hc
        · exact Or.inr (Or.inl (of_decide_eq_true hj))
      · exact Or.inr (Or.inr (Or.inl h1))
    · exact Or.inr (Or.inr (Or.inr h2))
  constructor
  · rw [analyze_cost]
    by_cases hj : joinTotal q > MAX_JOINS_THRESHOLD
    · simp [hj]
    · by_cases hc : crossB q = true
      · simp [hj, hc]
      · have hsub : (subq1B q || subq2B q) = true := by
          rcases hd with h' | h' | h' | h'
          · exact absurd h' hc
          · exact absurd h' hj
          · rw [h']; simp
          · rw [h']; simp
        simp [hj, hc, hsub]
  · exact analyze_warn_nonempty q hd

/-- Witness for C9 at a concrete expensive query. -/
theorem C9_expensive_invariant_witness :
    (analyze_query_complexity (strL ("A CROSS JOIN B"))).estimated_cost ≠ Cost.low ∧
    (analyze_query_complexity (strL ("A CROSS JOIN B"))).warnings ≠ [] :=
  C9_expensive_invariant (strL ("A CROSS JOIN B")) (by decide)

/-! The correction/retry bound. -/

/-- Execution does not change the correction counter. -/
theorem execute_sql_node_attempts (tool : List Char → List Char) (s : WState) :
    (execute_sql_node tool s).correction_attempts = s.correction_attempts := by
  by_cases h : s.generated_sql.isEmpty <;> simp [execute_sql_node, h]

/-- After `execute_sql_node`, the stored result is an `Error:` sentinel
whenever the tool always fails (the empty-candidate branch stores its own
`Error:` message). -/
theorem execute_sql_node_err (tool : List Char → List Char)
    (htool : ∀ sql, is_db_error (some (tool sql)) = true) (s : WState) :
    is_db_error (execute_sql_node tool s).db_result = true := by
  by_cases h : s.generated_sql.isEmpty
  · simp [execute_sql_node, h]
    decide
  · simp [execute_sql_node, h, htool]

/-- When every execution fails, the loop spends its remaining correction
budget and terminates at `handle_error` with the counter at the
ceiling. -/
theorem run_loop_exhausts (tool : List Char → List Char) (gen : WState → List Char)
    (htool : ∀ sql, is_db_error (some (tool sql)) = true) :
    ∀ (k : Nat) (s : WState) (fuel : Nat),
      s.correction_attempts + k = MAX_CORRECTION_ATTEMPTS → k + 1 ≤ fuel →
      loopSummary (run_loop tool gen fuel s) =
        some (Route.handle_error, MAX_CORRECTION_ATTEMPTS) := by
  intro k
  induction k with
  | zero =>
    intro s fuel hk hf
    cases fuel with
    | zero => omega
    | succ f =>
      have h1 := execute_sql_node_err tool htool s
      have h2 := execute_sql_node_attempts tool s
      have hmax : (execute_sql_node tool s).correction_attempts = MAX_CORRECTION_ATTEMPTS := by
        omega
      simp [run_loop, decide_after_execution, h1, hmax, loopSummary]
  | succ n ih =>
    intro s fuel hk hf
    cases fuel with
    | zero => omega
    | succ f =>
      have h1 := execute_sql_node_err tool htool s
      have h2 := execute_sql_node_attempts tool s
      have hlt : (execute_sql_node tool s).correction_attempts < MAX_CORRECTION_ATTEMPTS := by
        omega
      have hstep : run_loop tool gen (f + 1) s =
          run_loop tool gen f (correction_node gen (execute_sql_node tool s)) := by
        simp [run_loop, decide_after_execution, h1, hlt]
      rw [hstep]
      apply ih
      · simp [correction_node]
        omega
      · omega

/-- C4: when every candidate's execution yields an `Error:` sentinel, the
orchestrator — starting with the counter at 0 — performs exactly
`MAX_CORRECTION_ATTEMPTS` (= 3) corrections, each incrementing the
counter by exactly one and each guarded by the
`correction_attempts < MAX_CORRECTION_ATTEMPTS` check, and then
terminates through the `handle_error` route; any fuel of at least 4
executions suffices, so the loop never runs unboundedly. -/
theorem C4_correction_bound (tool : List Char → List Char) (gen : WState → List Char)
    (s0 : WState) (fuel : Nat)
    (htool : ∀ sql, is_db_error (some (tool sql)) = true)
    (h0 : s0.correction_attempts = 0)
    (hfuel : MAX_CORRECTION_ATTEMPTS + 1 ≤ fuel) :
    loopSummary (run_loop tool gen fuel s0) =
      some (Route.handle_error, MAX_CORRECTION_ATTEMPTS) := by
  apply run_loop_exhausts tool gen htool MAX_CORRECTION_ATTEMPTS s0 fuel
  · omega
  · omega

/-- Witness for C4 with a concrete always-failing tool. -/
theorem C4_correction_bound_witness :
    loopSummary (run_loop (fun _ => strL ("Error: boom")) (fun _ => strL ("SELECT 1")) 4
      { generated_sql := strL ("SELECT 0"), db_result := none,
        error_message := none, correction_attempts := 0 }) =
      some (Route.handle_error, 3) :=
  C4_correction_bound (fun _ => strL ("Error: boom")) (fun _ => strL ("SELECT 1"))
    { generated_sql := strL ("SELECT 0"), db_result := none,
      error_message := none, correction_attempts := 0 } 4
    (fun _ => (by decide : is_db_error (some (strL ("Error: boom"))) = true))
    rfl (by decide)

/-! Cache transparency. -/

/-- Any cache interaction that is not a successful hit (read exception or
plain miss) leaves the returned value equal to the direct computation. -/
theorem cached_fst_miss {R P V : Type} (schema : List Char)
    (dbExec : List Char → Option P → Except (List Char) R)
    (hash : List Char → List Char)
    (ser : R ⊕ List Char → V) (deser : V → R ⊕ List Char)
    (rc : RedisBackend V) (q : List Char)
    (h : ∀ v, redisGet rc (strL ("query_result:") ++ hash q) ≠ Except.ok (some v)) :
    (cached_query_execution schema dbExec hash ser deser (some rc) q).1 =
      safe_db_run schema dbExec q none := by
  rw [cached_query_execution]
  cases hget : redisGet rc (strL ("query_result:") ++ hash q) with
  | ok o =>
    cases o with
    | some v => exact absurd hget (h v)
    | none =>
      simp only [hget]
      split
      · split <;> rfl
      · rfl
  | error e =>
    simp only [hget]
    split
    · split <;> rfl
    · rfl


/-- C10 counterexample: a previously stored entry served as a hit is not
always identical to direct computation.  With a `datetime`-valued result
cell, the first run stores `json.dumps(result, default=str)`; the second
run's hit returns `json.loads` of that text, a plain string — while
direct computation returns the `datetime` value.  The two runs differ,
refuting the claim's unconditional served-hit clause. -/
theorem C10_counterexample :
    (cached_query_execution (strL ("info")) dtOracle (fun _ => []) jsonDumpsDS jsonLoads
        (cached_query_execution (strL ("info")) dtOracle (fun _ => []) jsonDumpsDS jsonLoads
          (some emptyBackend) (strL ("SELECT * FROM info.customers"))).2
        (strL ("SELECT * FROM info.customers"))).1 =
      Sum.inl (JValue.jstr (strL ("2024-01-01 00:00:00"))) ∧
    safe_db_run (strL ("info")) dtOracle (strL ("SELECT * FROM info.customers")) none =
      Sum.inl (JValue.jdatetime (strL ("2024-01-01 00:00:00"))) ∧
    (cached_query_execution (strL ("info")) dtOracle (fun _ => []) jsonDumpsDS jsonLoads
        (cached_query_execution (strL ("info")) dtOracle (fun _ => []) jsonDumpsDS jsonLoads
          (some emptyBackend) (strL ("SELECT * FROM info.customers"))).2
        (strL ("SELECT * FROM info.customers"))).1 ≠
      safe_db_run (strL ("info")) dtOracle (strL ("SELECT * FROM info.customers")) none := by
  refine ⟨by decide, by decide, by decide⟩

/-- C10 amended: the cached path returns the direct-computation value
when the backend is absent, when a configured backend raises at read
time, and on a plain miss (write errors swallowed); a previously stored
entry served as a hit returns the `json.dumps(default=str)`/`json.loads`
round trip of the directly computed value (`deser (ser result)`), which
is identical to it exactly when that round trip is faithful on the
result — true for JSON-native rows, false for `datetime`/`Decimal`
cells, which come back as plain strings. -/
theorem C10_cache_transparency_amended {R P V : Type} (schema : List Char)
    (dbExec : List Char → Option P → Except (List Char) R)
    (hash : List Char → List Char)
    (ser : R ⊕ List Char → V) (deser : V → R ⊕ List Char) (q : List Char) :
    ((cached_query_execution schema dbExec hash ser deser none q).1 =
      safe_db_run schema dbExec q none)
    ∧ (∀ rc : RedisBackend V, rc.readFails = true →
      (cached_query_execution schema dbExec hash ser deser (some rc) q).1 =
        safe_db_run schema dbExec q none)
    ∧ (∀ rc : RedisBackend V, rc.store (strL ("query_result:") ++ hash q) = none →
      (cached_query_execution schema dbExec hash ser deser (some rc) q).1 =
        safe_db_run schema dbExec q none)
    ∧ (∀ rc : RedisBackend V, rc.readFails = false → rc.writeFails = false →
      rc.store (strL ("query_result:") ++ hash q) = none →
      cacheableResult (safe_db_run schema dbExec q none) = true →
      (cached_query_execution schema dbExec hash ser deser
        (cached_query_execution schema dbExec hash ser deser (some rc) q).2 q).1 =
        deser (ser (safe_db_run schema dbExec q none)))
    ∧ (∀ rc : RedisBackend V, rc.readFails = false → rc.writeFails = false →
      rc.store (strL ("query_result:") ++ hash q) = none →
      cacheableResult (safe_db_run schema dbExec q none) = true →
      deser (ser (safe_db_run schema dbExec q none)) = safe_db_run schema dbExec q none →
      (cached_query_execution schema dbExec hash ser deser
        (cached_query_execution schema dbExec hash ser deser (some rc) q).2 q).1 =
        safe_db_run schema dbExec q none) := by
  have hmain : ∀ rc : RedisBackend V, rc.readFails = false → rc.writeFails = false →
      rc.store (strL ("query_result:") ++ hash q) = none →
      cacheableResult (safe_db_run schema dbExec q none) = true →
      (cached_query_execution schema dbExec hash ser deser
        (cached_query_execution schema dbExec hash ser deser (some rc) q).2 q).1 =
        deser (ser (safe_db_run schema dbExec q none)) := by
    intro rc hrf hwf hmiss hcache
    have hget : redisGet rc (strL ("query_result:") ++ hash q) = Except.ok none := by
      simp [redisGet, hrf, hmiss]
    have hset : redisSetex rc (strL ("query_result:") ++ hash q)
        (ser (safe_db_run schema dbExec q none)) =
        Except.ok ({ rc with
          store := fun k2 =>
            if k2 = strL ("query_result:") ++ hash q
            then some (ser (safe_db_run schema dbExec q none)) else rc.store k2 }) := by
      simp [redisSetex, hwf]
    have hrun : cached_query_execution schema dbExec hash ser deser (some rc) q =
        (safe_db_run schema dbExec q none, some ({ rc with
          store := fun k2 =>
            if k2 = strL ("query_result:") ++ hash q
            then some (ser (safe_db_run schema dbExec q none)) else rc.store k2 })) := by
      rw [cached_query_execution]
      simp only [hget, hcache, if_true, hset]
    rw [hrun]
    have hget2 : redisGet
        ({ rc with
          store := fun k2 =>
            if k2 = strL ("query_result:") ++ hash q
            then some (ser (safe_db_run schema dbExec q none)) else rc.store k2 })
        (strL ("query_result:") ++ hash q) =
        Except.ok (some (ser (safe_db_run schema dbExec q none))) := by
      simp [redisGet, hrf]
    rw [cached_query_execution]
    simp only [hget2]
  refine ⟨rfl, ?_, ?_, hmain, ?_⟩
  · intro rc hr
    apply cached_fst_miss
    intro v
    simp [redisGet, hr]
  · intro rc hs
    apply cached_fst_miss
    intro v
    by_cases hr : rc.readFails <;> simp [redisGet, hr, hs]
  · intro rc hrf hwf hmiss hcache hround
    rw [hmain rc hrf hwf hmiss hcache, hround]

/-- Witness for C10 amended: with a JSON-string result cell the round
trip is faithful and the served hit equals direct computation; the
absent-backend case is exercised too. -/
theorem C10_cache_transparency_amended_witness :
    ((cached_query_execution (strL ("info")) strOracle (fun _ => []) jsonDumpsDS jsonLoads
        none (strL ("SELECT * FROM info.customers"))).1 =
      safe_db_run (strL ("info")) strOracle (strL ("SELECT * FROM info.customers")) none)
    ∧ ((cached_query_execution (strL ("info")) strOracle (fun _ => []) jsonDumpsDS jsonLoads
        (cached_query_execution (strL ("info")) strOracle (fun _ => []) jsonDumpsDS jsonLoads
          (some emptyBackend) (strL ("SELECT * FROM info.customers"))).2
        (strL ("SELECT * FROM info.customers"))).1 =
      safe_db_run (strL ("info")) strOracle (strL ("SELECT * FROM info.customers")) none) :=
  ⟨(C10_cache_transparency_amended (strL ("info")) strOracle (fun _ => [])
      jsonDumpsDS jsonLoads (strL ("SELECT * FROM info.customers"))).1,
   (C10_cache_transparency_amended (strL ("info")) strOracle (fun _ => [])
      jsonDumpsDS jsonLoads (strL ("SELECT * FROM info.customers"))).2.2.2.2
      emptyBackend rfl rfl rfl (by decide) (by decide)⟩
